import Mathlib

/-!
Shallow embedding of `src/supabase-client.js`: a thin client over a hosted
backend platform, exposing three groups of operations (authentication,
content persistence, admin user management), each returning a normalized
outcome record with `data` and `error` fields.

Modelling conventions, shared by all definitions below:

* The remote platform's database is an explicit `DB` value (tables
  `paginas`, `pagina_historial`, `profiles` from the source's queries).
  ISO-8601 timestamp strings are modelled as `Nat` (their order agrees).
* Each remote call can fail for external reasons (network, service): every
  operation takes, per remote call it performs, an `Option Err` fault
  parameter (`none` = the call reaches the database and behaves as the
  platform specifies; `some e` = the platform reports error `e`).  This
  quantifies the theorems over every remote outcome.
* JavaScript destructuring `const { data: x } = await call()` binds `x` to
  the call's `data` field, which is null when the call failed; a subsequent
  member access `x.y` on that null value throws a `TypeError` that the
  surrounding try/catch converts to an error outcome.  This is modelled by
  matching on the `data : Option _` field and producing `typeErr` on `none`.
* The platform behaviours the source relies on are modelled from their
  documented semantics: `.single()` with zero matching rows yields the
  error code `PGRST116` with null data; `.upsert(..., onConflict nombre,
  ignoreDuplicates false)` overwrites the row with the same `nombre` or
  inserts a fresh one; `.order(col, descending).limit(10)` sorts the
  matching rows by the column, newest first, and truncates to 10; a write
  acknowledgment carries a (populated) payload, abstracted as `Unit`.
-/

/-- A platform error value: an error code and a message (the source only
ever inspects `error.code` and otherwise passes errors through). -/
structure Err where
  code : String
  message : String
deriving DecidableEq, Repr

/-- The platform's error code for a zero-row `.single()` result, compared
against `error.code` in `loadPageContent` (source line 144). -/
def pgrstNoRows : String := "PGRST116"

/-- An error synthesized locally by `throw new Error(msg)`. -/
def mkErr (msg : String) : Err := { code := "Error", message := msg }

/-- The JavaScript runtime error thrown by a member access on a null value
(e.g. `userData.user` when `userData` is null). -/
def typeErr : Err := { code := "TypeError", message := "Cannot read properties of null" }

/-- The normalized outcome record `{ data, error }` returned by the
operations: a field is `none` exactly when the source returns null in it. -/
structure Outcome (α : Type) where
  data : Option α
  error : Option Err
deriving DecidableEq, Repr

/-- An authenticated principal (the source only uses `user.id`). -/
structure User where
  id : String
deriving DecidableEq, Repr

/-- A row of the `paginas` table (columns from source lines 118-126). -/
structure Pagina where
  nombre : String
  contenido_html : String
  usuario_id : String
  actualizado_en : Nat
deriving DecidableEq, Repr

/-- A row of the `pagina_historial` table (columns from source line 156). -/
structure HistRow where
  nombre_pagina : String
  contenido_html : String
  actualizado_en : Nat
  usuario_id : String
deriving DecidableEq, Repr

/-- A row of the `profiles` table (columns from source line 188). -/
structure Profile where
  id : String
  email : String
  role : String
  created_at : Nat
deriving DecidableEq, Repr

/-- The remote relational state consumed by the content and admin groups. -/
structure DB where
  paginas : List Pagina
  historial : List HistRow
  profiles : List Profile
deriving DecidableEq, Repr

/-- Payload of a successful authentication call (`signUp` / `signIn`). -/
structure AuthData where
  user : Option User
deriving DecidableEq, Repr

/-- Payload of `supabase.auth.getUser()`: `{ user }`, with `user` null when
no principal is authenticated. -/
structure UserData where
  user : Option User
deriving DecidableEq, Repr

/-- Payload of `supabase.auth.getSession()`: `{ session }`, null when no
session exists. -/
structure SessionData where
  session : Option User
deriving DecidableEq, Repr

namespace authAPI

/-- Embedding of `authAPI.signUp` (source lines 28-44): the remote response
is either data or an error; an error is thrown and caught, yielding the
error-populated outcome. -/
def signUp (resp : Except Err AuthData) : Outcome AuthData :=
  match resp with
  | .ok d => { data := some d, error := none }
  | .error e => { data := none, error := some e }

/-- Embedding of `authAPI.signIn` (source lines 46-59), same shape as
`signUp`. -/
def signIn (resp : Except Err AuthData) : Outcome AuthData :=
  match resp with
  | .ok d => { data := some d, error := none }
  | .error e => { data := none, error := some e }

/-- The outcome record of `signOut` (source lines 61-70): the source
returns `{ error }` with no `data` field at all. -/
structure SignOutOutcome where
  error : Option Err
deriving DecidableEq, Repr

/-- Embedding of `authAPI.signOut`: the remote call yields only an optional
error, which is thrown and caught back into `{ error }`. -/
def signOut (resp : Option Err) : SignOutOutcome :=
  match resp with
  | some e => { error := some e }
  | none => { error := none }

/-- Embedding of `authAPI.getSession` (source lines 72-81): on success the
platform reports the current session (or its absence) as data. -/
def getSession (auth : Option User) (fault : Option Err) : Outcome SessionData :=
  match fault with
  | some e => { data := none, error := some e }
  | none => { data := some { session := auth }, error := none }

/-- Embedding of `authAPI.getUser` (source lines 83-92): on success the
platform reports the current principal, null when unauthenticated. -/
def getUser (auth : Option User) (fault : Option Err) : Outcome UserData :=
  match fault with
  | some e => { data := none, error := some e }
  | none => { data := some { user := auth }, error := none }

/-- The redirect target computed by `resetPassword` from the browser
origin (source line 97). -/
def resetRedirect (origin : String) : String := origin ++ "/update-password"

/-- Embedding of `authAPI.resetPassword` (source lines 94-106); the
platform's acknowledgment payload is abstracted as `Unit`. -/
def resetPassword (resp : Except Err Unit) : Outcome Unit :=
  match resp with
  | .ok d => { data := some d, error := none }
  | .error e => { data := none, error := some e }

end authAPI

namespace contentAPI

/-- Fault injection points for `savePageContent`: its two remote calls
(the `authAPI.getUser` round trip and the upsert). -/
structure SaveEnv where
  getUserFault : Option Err
  upsertFault : Option Err
deriving DecidableEq, Repr

/-- Platform semantics of `.upsert(row, onConflict nombre, ignoreDuplicates
false)` on the `paginas` table: overwrite every row with the same `nombre`,
or append when none exists. -/
def upsertPaginas (l : List Pagina) (row : Pagina) : List Pagina :=
  if l.any (fun p => p.nombre == row.nombre) then
    l.map (fun p => if p.nombre == row.nombre then row else p)
  else
    l ++ [row]

/-- Embedding of `contentAPI.savePageContent` (source lines 111-134):
destructure `data` from `authAPI.getUser` (null data makes `userData.user`
throw a TypeError), synthesize "Usuario no autenticado" when no user,
otherwise upsert the page row stamped with the user id and timestamp.
Returns the outcome together with the resulting remote state. -/
def savePageContent (auth : Option User) (env : SaveEnv) (now : Nat) (db : DB)
    (pageName content : String) : Outcome Unit × DB :=
  match (authAPI.getUser auth env.getUserFault).data with
  | none => ({ data := none, error := some typeErr }, db)
  | some userData =>
    match userData.user with
    | none => ({ data := none, error := some (mkErr "Usuario no autenticado") }, db)
    | some u =>
      match env.upsertFault with
      | some e => ({ data := none, error := some e }, db)
      | none =>
        let row : Pagina :=
          { nombre := pageName, contenido_html := content,
            usuario_id := u.id, actualizado_en := now }
        ({ data := some (), error := none },
         { db with paginas := upsertPaginas db.paginas row })

/-- The projection selected by `loadPageContent` (source line 140). -/
structure LoadRow where
  contenido_html : String
  actualizado_en : Nat
deriving DecidableEq, Repr

/-- Platform semantics of `.select(...).eq(nombre, pageName).single()`:
the matching row's projection, or the `PGRST116` error when no row
matches (`nombre` is unique on the platform). -/
def selectSinglePagina (db : DB) (pageName : String) : Except Err LoadRow :=
  match db.paginas.find? (fun p => p.nombre == pageName) with
  | some p => .ok { contenido_html := p.contenido_html, actualizado_en := p.actualizado_en }
  | none => .error { code := pgrstNoRows, message := "no rows returned" }

/-- Embedding of `contentAPI.loadPageContent` (source lines 136-150): a
`PGRST116` error is not thrown (its null data is returned with a null
error); any other error is thrown and caught into the error outcome. -/
def loadPageContent (fault : Option Err) (db : DB) (pageName : String) : Outcome LoadRow :=
  match (match fault with
         | some e => Except.error e
         | none => selectSinglePagina db pageName) with
  | .ok row => { data := some row, error := none }
  | .error e =>
    if e.code == pgrstNoRows then { data := none, error := none }
    else { data := none, error := some e }

/-- The descending-timestamp order used by `getPageHistory`'s
`.order(actualizado_en, descending)` (source line 158). -/
def histDescRel (a b : HistRow) : Prop := b.actualizado_en ≤ a.actualizado_en

instance : DecidableRel histDescRel :=
  fun a b => inferInstanceAs (Decidable (b.actualizado_en ≤ a.actualizado_en))

instance : IsTotal HistRow histDescRel :=
  ⟨fun a b => Nat.le_total b.actualizado_en a.actualizado_en⟩

instance : IsTrans HistRow histDescRel :=
  ⟨fun _ _ _ h1 h2 => Nat.le_trans h2 h1⟩

/-- Platform semantics of the history query (source lines 154-159): rows of
`pagina_historial` for the page name, sorted newest first, first 10. -/
def queryHistorial (db : DB) (pageName : String) : List HistRow :=
  (List.insertionSort histDescRel
    (db.historial.filter (fun h => h.nombre_pagina == pageName))).take 10

/-- Embedding of `contentAPI.getPageHistory` (source lines 152-167). -/
def getPageHistory (fault : Option Err) (db : DB) (pageName : String) :
    Outcome (List HistRow) :=
  match fault with
  | some e => { data := none, error := some e }
  | none => { data := some (queryHistorial db pageName), error := none }

end contentAPI

namespace adminAPI

/-- Fault injection points for the admin operations: their three remote
calls (`authAPI.getUser`, the profile-role lookup, and the final query or
update). -/
structure AdminEnv where
  getUserFault : Option Err
  profileFault : Option Err
  actionFault : Option Err
deriving DecidableEq, Repr

/-- The `profile` variable destructured from the role lookup (source lines
178-182 and 205-209): the looked-up row's data, which is null both when the
lookup call fails and when no `profiles` row has the caller's id (the
`.single()` error is discarded by the destructuring). -/
def lookupProfile (fault : Option Err) (db : DB) (uid : String) : Option Profile :=
  match fault with
  | some _ => none
  | none => db.profiles.find? (fun p => p.id == uid)

/-- The descending-creation order of `getUsers`'s `.order(created_at,
descending)` (source line 189). -/
def profDescRel (a b : Profile) : Prop := b.created_at ≤ a.created_at

instance : DecidableRel profDescRel :=
  fun a b => inferInstanceAs (Decidable (b.created_at ≤ a.created_at))

instance : IsTotal Profile profDescRel :=
  ⟨fun a b => Nat.le_total b.created_at a.created_at⟩

instance : IsTrans Profile profDescRel :=
  ⟨fun _ _ _ h1 h2 => Nat.le_trans h2 h1⟩

/-- Embedding of `adminAPI.getUsers` (source lines 172-197): require an
authenticated principal (else "No autenticado"), dereference the looked-up
profile (TypeError when null), require role admin (else "No autorizado"),
then list all profiles newest-created first. -/
def getUsers (auth : Option User) (env : AdminEnv) (db : DB) : Outcome (List Profile) :=
  match (authAPI.getUser auth env.getUserFault).data with
  | none => { data := none, error := some typeErr }
  | some userData =>
    match userData.user with
    | none => { data := none, error := some (mkErr "No autenticado") }
    | some u =>
      match lookupProfile env.profileFault db u.id with
      | none => { data := none, error := some typeErr }
      | some profile =>
        if profile.role != "admin" then
          { data := none, error := some (mkErr "No autorizado") }
        else
          match env.actionFault with
          | some e => { data := none, error := some e }
          | none =>
            { data := some (List.insertionSort profDescRel db.profiles), error := none }

/-- Platform semantics of `.update(role newRole).eq(id, userId)` on
`profiles`: set the role of every row whose id matches (zero matches
update nothing and are not an error). -/
def updateRole (l : List Profile) (userId newRole : String) : List Profile :=
  l.map (fun p => if p.id == userId then { p with role := newRole } else p)

/-- Embedding of `adminAPI.updateUserRole` (source lines 199-224): same
authorization preamble as `getUsers`, then write `newRole` (unvalidated)
into the target profile's role. Returns the outcome and resulting state. -/
def updateUserRole (auth : Option User) (env : AdminEnv) (db : DB)
    (userId newRole : String) : Outcome Unit × DB :=
  match (authAPI.getUser auth env.getUserFault).data with
  | none => ({ data := none, error := some typeErr }, db)
  | some userData =>
    match userData.user with
    | none => ({ data := none, error := some (mkErr "No autenticado") }, db)
    | some u =>
      match lookupProfile env.profileFault db u.id with
      | none => ({ data := none, error := some typeErr }, db)
      | some profile =>
        if profile.role != "admin" then
          ({ data := none, error := some (mkErr "No autorizado") }, db)
        else
          match env.actionFault with
          | some e => ({ data := none, error := some e }, db)
          | none =>
            ({ data := some (), error := none },
             { db with profiles := updateRole db.profiles userId newRole })

end adminAPI

/-- Outcome shape with exactly one of the two fields populated. -/
def exactlyOne {α : Type} (o : Outcome α) : Prop :=
  (o.data ≠ none ∧ o.error = none) ∨ (o.data = none ∧ o.error ≠ none)

/-- Outcome shape with at most one of the two fields populated. -/
def atMostOne {α : Type} (o : Outcome α) : Prop :=
  o.data = none ∨ o.error = none

/-- The error-populated outcome shape produced by every caught failure:
null data, non-null error. -/
def errShaped {α : Type} (o : Outcome α) : Prop :=
  o.data = none ∧ o.error ≠ none

/-- The rows of the `paginas` table carrying a given page name. -/
def pageRows (db : DB) (pageName : String) : List Pagina :=
  db.paginas.filter (fun p => p.nombre == pageName)

/-- Success conditions of `savePageContent`: both remote calls succeed and
a principal is authenticated. Its negation enumerates the failure paths. -/
def saveOk (auth : Option User) (env : contentAPI.SaveEnv) : Prop :=
  env.getUserFault = none ∧ env.upsertFault = none ∧ ∃ u, auth = some u

/-- Success conditions of the admin operations: all three remote calls
succeed, a principal is authenticated, and its profile row exists with
role admin. Its negation enumerates the failure paths. -/
def adminOk (auth : Option User) (env : adminAPI.AdminEnv) (db : DB) : Prop :=
  env.getUserFault = none ∧ env.actionFault = none ∧
    ∃ u prof, auth = some u ∧
      adminAPI.lookupProfile env.profileFault db u.id = some prof ∧ prof.role = "admin"

/-- An empty remote state. -/
def emptyDB : DB := { paginas := [], historial := [], profiles := [] }

/-- A generic remote failure used in concrete instantiations. -/
def netErr : Err := { code := "503", message := "network failure" }

/-- A profile with role admin, for concrete instantiations. -/
def adminProf : Profile := { id := "a1", email := "a@x", role := "admin", created_at := 5 }

/-- A profile with a non-admin role, for concrete instantiations. -/
def plainProf : Profile := { id := "u1", email := "u@x", role := "user", created_at := 3 }

/-- A remote state holding the two sample profiles. -/
def adminDB : DB := { paginas := [], historial := [], profiles := [adminProf, plainProf] }

/-- A remote state holding sample history rows for page name h, out of
order and mixed with another page's row. -/
def histDB : DB :=
  { paginas := [], profiles := [],
    historial := [⟨"h", "a", 1, "u"⟩, ⟨"h", "b", 9, "u"⟩, ⟨"g", "c", 5, "u"⟩, ⟨"h", "d", 4, "u"⟩] }

/-! Helper lemmas about the outcome shapes and list operations. -/

theorem exactlyOne_data {α : Type} (d : α) :
    exactlyOne ({ data := some d, error := none } : Outcome α) :=
  Or.inl ⟨Option.some_ne_none d, rfl⟩

theorem exactlyOne_err {α : Type} (e : Err) :
    exactlyOne ({ data := none, error := some e } : Outcome α) :=
  Or.inr ⟨rfl, fun h => Option.noConfusion h⟩

theorem errShaped_mk {α : Type} (e : Err) :
    errShaped ({ data := none, error := some e } : Outcome α) :=
  ⟨rfl, fun h => Option.noConfusion h⟩

/-- Filtering by a page name after the overwrite branch of an upsert
replaces every matching row by the new row. -/
theorem filter_map_upsert (l : List Pagina) (row : Pagina) :
    (l.map (fun p => if p.nombre == row.nombre then row else p)).filter
        (fun p => p.nombre == row.nombre) =
      (l.filter (fun p => p.nombre == row.nombre)).map (fun _ => row) := by
  induction l with
  | nil => rfl
  | cons x xs ih =>
    by_cases hx : x.nombre == row.nombre
    · simp only [List.map_cons, if_pos hx, List.filter_cons, hx, beq_self_eq_true, if_true, ih]
    · simp only [List.map_cons, if_neg hx, List.filter_cons, ih]

/-- Upserting a row into a list holding at most one row with its name
leaves exactly that row under the name. -/
theorem filter_upsertPaginas (l : List Pagina) (row : Pagina) (n : String)
    (hn : row.nombre = n)
    (h : (l.filter (fun p => p.nombre == n)).length ≤ 1) :
    (contentAPI.upsertPaginas l row).filter (fun p => p.nombre == n) = [row] := by
  subst hn
  unfold contentAPI.upsertPaginas
  by_cases hany : l.any (fun p => p.nombre == row.nombre)
  · rw [if_pos hany, filter_map_upsert]
    rcases List.any_eq_true.mp hany with ⟨x, hmem, hx⟩
    have hpos : 0 < (l.filter (fun p => p.nombre == row.nombre)).length :=
      List.length_pos.mpr (List.ne_nil_of_mem (List.mem_filter.mpr ⟨hmem, hx⟩))
    rcases List.length_eq_one.mp (Nat.le_antisymm h hpos) with ⟨a, ha⟩
    rw [ha]
    rfl
  · rw [if_neg hany, List.filter_append,
      List.filter_eq_nil_iff.mpr
        (fun a ha hpa => hany (List.any_eq_true.mpr ⟨a, ha, hpa⟩))]
    simp [List.filter_cons, beq_self_eq_true]

/-- When filtering leaves a single element, that element is the first
match. -/
theorem find?_of_filter_eq_singleton {α : Type} {p : α → Bool} {l : List α} {a : α}
    (h : l.filter p = [a]) : l.find? p = some a := by
  induction l with
  | nil => simp [List.filter] at h
  | cons x xs ih =>
    by_cases hx : p x
    · rw [List.filter_cons_of_pos hx] at h
      rw [List.find?_cons_of_pos _ hx]
      exact congrArg some (List.cons.injEq .. ▸ h).1
    · rw [List.filter_cons_of_neg hx] at h
      rw [List.find?_cons_of_neg _ hx]
      exact ih h

/-- A role update matching no profile id leaves the table unchanged. -/
theorem updateRole_of_no_match (l : List Profile) (uid newRole : String)
    (h : ∀ p ∈ l, p.id ≠ uid) : adminAPI.updateRole l uid newRole = l := by
  unfold adminAPI.updateRole
  induction l with
  | nil => rfl
  | cons x xs ih =>
    rw [List.map_cons,
      if_neg (by simpa using h x (List.mem_cons_self x xs)),
      ih (fun p hp => h p (List.mem_cons_of_mem x hp))]

/-! Characterization lemmas: one per control-flow path of each stateful
operation. -/

theorem save_getUserFault (auth : Option User) (e : Err) (uf : Option Err)
    (now : Nat) (db : DB) (n c : String) :
    contentAPI.savePageContent auth ⟨some e, uf⟩ now db n c =
      ({ data := none, error := some typeErr }, db) := rfl

theorem save_unauth (uf : Option Err) (now : Nat) (db : DB) (n c : String) :
    contentAPI.savePageContent none ⟨none, uf⟩ now db n c =
      ({ data := none, error := some (mkErr "Usuario no autenticado") }, db) := rfl

theorem save_upsertFault (u : User) (e : Err) (now : Nat) (db : DB) (n c : String) :
    contentAPI.savePageContent (some u) ⟨none, some e⟩ now db n c =
      ({ data := none, error := some e }, db) := rfl

theorem save_ok (u : User) (now : Nat) (db : DB) (n c : String) :
    contentAPI.savePageContent (some u) ⟨none, none⟩ now db n c =
      ({ data := some (), error := none },
       { db with paginas := contentAPI.upsertPaginas db.paginas ⟨n, c, u.id, now⟩ }) := rfl

theorem load_fault (e : Err) (db : DB) (n : String) (h : e.code ≠ pgrstNoRows) :
    contentAPI.loadPageContent (some e) db n = { data := none, error := some e } := by
  simp only [contentAPI.loadPageContent]
  rw [if_neg (by simpa using h)]

theorem load_fault_noRows (e : Err) (db : DB) (n : String) (h : e.code = pgrstNoRows) :
    contentAPI.loadPageContent (some e) db n = { data := none, error := none } := by
  simp only [contentAPI.loadPageContent]
  rw [if_pos (by simpa using h)]

theorem load_found (db : DB) (n : String) (p : Pagina)
    (h : db.paginas.find? (fun q => q.nombre == n) = some p) :
    contentAPI.loadPageContent none db n =
      { data := some { contenido_html := p.contenido_html,
                       actualizado_en := p.actualizado_en }, error := none } := by
  simp only [contentAPI.loadPageContent, contentAPI.selectSinglePagina, h]

theorem load_missing (db : DB) (n : String)
    (h : db.paginas.find? (fun q => q.nombre == n) = none) :
    contentAPI.loadPageContent none db n = { data := none, error := none } := by
  simp only [contentAPI.loadPageContent, contentAPI.selectSinglePagina, h]
  rfl

theorem getUsers_getUserFault (auth : Option User) (e : Err) (pf af : Option Err) (db : DB) :
    adminAPI.getUsers auth ⟨some e, pf, af⟩ db =
      { data := none, error := some typeErr } := rfl

theorem getUsers_unauth (pf af : Option Err) (db : DB) :
    adminAPI.getUsers none ⟨none, pf, af⟩ db =
      { data := none, error := some (mkErr "No autenticado") } := rfl

theorem getUsers_profile_none (u : User) (pf af : Option Err) (db : DB)
    (h : adminAPI.lookupProfile pf db u.id = none) :
    adminAPI.getUsers (some u) ⟨none, pf, af⟩ db =
      { data := none, error := some typeErr } := by
  simp only [adminAPI.getUsers, authAPI.getUser, h]

theorem getUsers_not_admin (u : User) (pf af : Option Err) (db : DB) (prof : Profile)
    (h1 : adminAPI.lookupProfile pf db u.id = some prof) (h2 : prof.role ≠ "admin") :
    adminAPI.getUsers (some u) ⟨none, pf, af⟩ db =
      { data := none, error := some (mkErr "No autorizado") } := by
  simp only [adminAPI.getUsers, authAPI.getUser, h1]
  rw [if_pos (by simpa using h2)]

theorem getUsers_actionFault (u : User) (pf : Option Err) (db : DB) (prof : Profile) (e : Err)
    (h1 : adminAPI.lookupProfile pf db u.id = some prof) (h2 : prof.role = "admin") :
    adminAPI.getUsers (some u) ⟨none, pf, some e⟩ db =
      { data := none, error := some e } := by
  simp only [adminAPI.getUsers, authAPI.getUser, h1]
  rw [if_neg (by simp [h2])]

theorem getUsers_ok (u : User) (pf : Option Err) (db : DB) (prof : Profile)
    (h1 : adminAPI.lookupProfile pf db u.id = some prof) (h2 : prof.role = "admin") :
    adminAPI.getUsers (some u) ⟨none, pf, none⟩ db =
      { data := some (List.insertionSort adminAPI.profDescRel db.profiles),
        error := none } := by
  simp only [adminAPI.getUsers, authAPI.getUser, h1]
  rw [if_neg (by simp [h2])]

theorem updateUserRole_getUserFault (auth : Option User) (e : Err) (pf af : Option Err)
    (db : DB) (uid r : String) :
    adminAPI.updateUserRole auth ⟨some e, pf, af⟩ db uid r =
      ({ data := none, error := some typeErr }, db) := rfl

theorem updateUserRole_unauth (pf af : Option Err) (db : DB) (uid r : String) :
    adminAPI.updateUserRole none ⟨none, pf, af⟩ db uid r =
      ({ data := none, error := some (mkErr "No autenticado") }, db) := rfl

theorem updateUserRole_profile_none (u : User) (pf af : Option Err) (db : DB) (uid r : String)
    (h : adminAPI.lookupProfile pf db u.id = none) :
    adminAPI.updateUserRole (some u) ⟨none, pf, af⟩ db uid r =
      ({ data := none, error := some typeErr }, db) := by
  simp only [adminAPI.updateUserRole, authAPI.getUser, h]

theorem updateUserRole_not_admin (u : User) (pf af : Option Err) (db : DB) (prof : Profile)
    (uid r : String)
    (h1 : adminAPI.lookupProfile pf db u.id = some prof) (h2 : prof.role ≠ "admin") :
    adminAPI.updateUserRole (some u) ⟨none, pf, af⟩ db uid r =
      ({ data := none, error := some (mkErr "No autorizado") }, db) := by
  simp only [adminAPI.updateUserRole, authAPI.getUser, h1]
  rw [if_pos (by simpa using h2)]

theorem updateUserRole_actionFault (u : User) (pf : Option Err) (db : DB) (prof : Profile)
    (e : Err) (uid r : String)
    (h1 : adminAPI.lookupProfile pf db u.id = some prof) (h2 : prof.role = "admin") :
    adminAPI.updateUserRole (some u) ⟨none, pf, some e⟩ db uid r =
      ({ data := none, error := some e }, db) := by
  simp only [adminAPI.updateUserRole, authAPI.getUser, h1]
  rw [if_neg (by simp [h2])]

theorem updateUserRole_ok (u : User) (pf : Option Err) (db : DB) (prof : Profile)
    (uid r : String)
    (h1 : adminAPI.lookupProfile pf db u.id = some prof) (h2 : prof.role = "admin") :
    adminAPI.updateUserRole (some u) ⟨none, pf, none⟩ db uid r =
      ({ data := some (), error := none },
       { db with profiles := adminAPI.updateRole db.profiles uid r }) := by
  simp only [adminAPI.updateUserRole, authAPI.getUser, h1]
  rw [if_neg (by simp [h2])]

/-- C1 counterexample: on an empty page store, `loadPageContent` swallows
the no-matching-row error and returns an outcome with both fields null,
refuting the claim that every operation returns exactly one non-null
field. -/
theorem claim_c1_counterexample :
    contentAPI.loadPageContent none emptyDB "home" = { data := none, error := none } ∧
    ¬ exactlyOne (contentAPI.loadPageContent none emptyDB "home") := by
  refine ⟨by decide, fun hc => ?_⟩
  simp only [exactlyOne] at hc
  rcases hc with ⟨h1, -⟩ | ⟨-, h2⟩
  · exact h1 (by decide)
  · exact h2 (by decide)

/-- C1 (amended): every operation's outcome never has both fields
non-null; all operations other than loadPageContent (and signOut, whose
record carries only an error field) return exactly one non-null field,
while loadPageContent guarantees only at-most-one (both fields are null
in the swallowed no-matching-row case). -/
theorem claim_c1_amended :
    (∀ resp, exactlyOne (authAPI.signUp resp)) ∧
    (∀ resp, exactlyOne (authAPI.signIn resp)) ∧
    (∀ resp, (authAPI.signOut resp).error = resp) ∧
    (∀ auth fault, exactlyOne (authAPI.getSession auth fault)) ∧
    (∀ auth fault, exactlyOne (authAPI.getUser auth fault)) ∧
    (∀ resp, exactlyOne (authAPI.resetPassword resp)) ∧
    (∀ auth env now db n c, exactlyOne (contentAPI.savePageContent auth env now db n c).1) ∧
    (∀ fault db n, atMostOne (contentAPI.loadPageContent fault db n)) ∧
    (∀ fault db n, exactlyOne (contentAPI.getPageHistory fault db n)) ∧
    (∀ auth env db, exactlyOne (adminAPI.getUsers auth env db)) ∧
    (∀ auth env db uid r, exactlyOne (adminAPI.updateUserRole auth env db uid r).1) := by
  refine ⟨?_, ?_, ?_, ?_, ?_, ?_, ?_, ?_, ?_, ?_, ?_⟩
  · intro resp
    cases resp with
    | ok d => exact exactlyOne_data d
    | error e => exact exactlyOne_err e
  · intro resp
    cases resp with
    | ok d => exact exactlyOne_data d
    | error e => exact exactlyOne_err e
  · intro resp
    cases resp with
    | some e => rfl
    | none => rfl
  · intro auth fault
    cases fault with
    | some e => exact exactlyOne_err e
    | none => exact exactlyOne_data _
  · intro auth fault
    cases fault with
    | some e => exact exactlyOne_err e
    | none => exact exactlyOne_data _
  · intro resp
    cases resp with
    | ok d => exact exactlyOne_data d
    | error e => exact exactlyOne_err e
  · intro auth env now db n c
    obtain ⟨gf, uf⟩ := env
    cases gf with
    | some e => exact exactlyOne_err _
    | none =>
      cases auth with
      | none => exact exactlyOne_err _
      | some u =>
        cases uf with
        | some e => exact exactlyOne_err _
        | none => exact exactlyOne_data _
  · intro fault db n
    cases fault with
    | some e =>
      by_cases hc : e.code = pgrstNoRows
      · rw [load_fault_noRows e db n hc]
        exact Or.inl rfl
      · rw [load_fault e db n hc]
        exact Or.inl rfl
    | none =>
      cases hf : db.paginas.find? (fun q => q.nombre == n) with
      | none =>
        rw [load_missing db n hf]
        exact Or.inl rfl
      | some p =>
        rw [load_found db n p hf]
        exact Or.inr rfl
  · intro fault db n
    cases fault with
    | some e => exact exactlyOne_err _
    | none => exact exactlyOne_data _
  · intro auth env db
    obtain ⟨gf, pf, af⟩ := env
    cases gf with
    | some e => exact exactlyOne_err _
    | none =>
      cases auth with
      | none => exact exactlyOne_err _
      | some u =>
        cases hlp : adminAPI.lookupProfile pf db u.id with
        | none =>
          rw [getUsers_profile_none u pf af db hlp]
          exact exactlyOne_err _
        | some prof =>
          by_cases hrole : prof.role = "admin"
          · cases af with
            | some e =>
              rw [getUsers_actionFault u pf db prof e hlp hrole]
              exact exactlyOne_err _
            | none =>
              rw [getUsers_ok u pf db prof hlp hrole]
              exact exactlyOne_data _
          · rw [getUsers_not_admin u pf af db prof hlp hrole]
            exact exactlyOne_err _
  · intro auth env db uid r
    obtain ⟨gf, pf, af⟩ := env
    cases gf with
    | some e => exact exactlyOne_err _
    | none =>
      cases auth with
      | none => exact exactlyOne_err _
      | some u =>
        cases hlp : adminAPI.lookupProfile pf db u.id with
        | none =>
          rw [updateUserRole_profile_none u pf af db uid r hlp]
          exact exactlyOne_err _
        | some prof =>
          by_cases hrole : prof.role = "admin"
          · cases af with
            | some e =>
              rw [updateUserRole_actionFault u pf db prof e uid r hlp hrole]
              exact exactlyOne_err _
            | none =>
              rw [updateUserRole_ok u pf db prof uid r hlp hrole]
              exact exactlyOne_data _
          · rw [updateUserRole_not_admin u pf af db prof uid r hlp hrole]
            exact exactlyOne_err _

/-- C2: with the remote fetch succeeding, a page name matching no row
yields a null-data, null-error outcome (the no-rows code is swallowed as
success with no data), whereas any other remote failure yields a null-data,
non-null-error outcome. -/
theorem claim_c2 :
    (∀ db n, db.paginas.find? (fun q => q.nombre == n) = none →
      contentAPI.loadPageContent none db n = { data := none, error := none }) ∧
    (∀ e db n, e.code ≠ pgrstNoRows →
      contentAPI.loadPageContent (some e) db n = { data := none, error := some e }) :=
  ⟨fun db n h => load_missing db n h, fun e db n h => load_fault e db n h⟩

/-- C2 witness at concrete inputs: an empty store and a generic network
error. -/
theorem claim_c2_witness :
    contentAPI.loadPageContent none emptyDB "ghost" = { data := none, error := none } ∧
    contentAPI.loadPageContent (some netErr) emptyDB "ghost" =
      { data := none, error := some netErr } :=
  ⟨claim_c2.1 emptyDB "ghost" rfl, claim_c2.2 netErr emptyDB "ghost" (by decide)⟩

/-- C3: with the user lookup succeeding but no authenticated principal,
savePageContent returns the locally synthesized "Usuario no autenticado"
failure with null data, for every page name, content, timestamp, store
state, and upsert-call outcome, and leaves the page store untouched. -/
theorem claim_c3 (uf : Option Err) (now : Nat) (db : DB) (pageName content : String) :
    contentAPI.savePageContent none ⟨none, uf⟩ now db pageName content =
      ({ data := none, error := some (mkErr "Usuario no autenticado") }, db) :=
  save_unauth uf now db pageName content

/-- C5: saving the same page name twice (authenticated, remote calls
succeeding, starting from a store with at most one row under that name)
leaves exactly one row under the name, holding the second content, and a
subsequent load returns the second content. -/
theorem claim_c5 (u1 u2 : User) (now1 now2 : Nat) (db : DB) (n c1 c2 : String)
    (h : (pageRows db n).length ≤ 1) :
    pageRows (contentAPI.savePageContent (some u2) ⟨none, none⟩ now2
        (contentAPI.savePageContent (some u1) ⟨none, none⟩ now1 db n c1).2 n c2).2 n =
      [⟨n, c2, u2.id, now2⟩] ∧
    contentAPI.loadPageContent none
        (contentAPI.savePageContent (some u2) ⟨none, none⟩ now2
          (contentAPI.savePageContent (some u1) ⟨none, none⟩ now1 db n c1).2 n c2).2 n =
      { data := some { contenido_html := c2, actualizado_en := now2 }, error := none } := by
  have h1 : (contentAPI.upsertPaginas db.paginas ⟨n, c1, u1.id, now1⟩).filter
      (fun p => p.nombre == n) = [⟨n, c1, u1.id, now1⟩] :=
    filter_upsertPaginas db.paginas ⟨n, c1, u1.id, now1⟩ n rfl h
  have h2 : (contentAPI.upsertPaginas
        (contentAPI.upsertPaginas db.paginas ⟨n, c1, u1.id, now1⟩)
        ⟨n, c2, u2.id, now2⟩).filter (fun p => p.nombre == n) = [⟨n, c2, u2.id, now2⟩] :=
    filter_upsertPaginas _ ⟨n, c2, u2.id, now2⟩ n rfl (by rw [h1]; simp)
  exact ⟨h2, load_found _ n ⟨n, c2, u2.id, now2⟩ (find?_of_filter_eq_singleton h2)⟩

/-- C5 witness: two concrete saves of page home starting from the empty
store. -/
theorem claim_c5_witness :
    pageRows (contentAPI.savePageContent (some ⟨"u7"⟩) ⟨none, none⟩ 9
        (contentAPI.savePageContent (some ⟨"u7"⟩) ⟨none, none⟩ 4 emptyDB "home" "c1").2
        "home" "c2").2 "home" = [⟨"home", "c2", "u7", 9⟩] ∧
    contentAPI.loadPageContent none
        (contentAPI.savePageContent (some ⟨"u7"⟩) ⟨none, none⟩ 9
          (contentAPI.savePageContent (some ⟨"u7"⟩) ⟨none, none⟩ 4 emptyDB "home" "c1").2
          "home" "c2").2 "home" =
      { data := some { contenido_html := "c2", actualizado_en := 9 }, error := none } :=
  claim_c5 ⟨"u7"⟩ ⟨"u7"⟩ 4 9 emptyDB "home" "c1" "c2" (by decide)

/-- C4: an authenticated principal whose profile row exists with a
non-admin role gets the "No autorizado" failure from both admin
operations, for every final-call outcome, and updateUserRole leaves the
profile table untouched. -/
theorem claim_c4 (u : User) (pf af : Option Err) (db : DB) (prof : Profile)
    (userId newRole : String)
    (hlp : adminAPI.lookupProfile pf db u.id = some prof)
    (hrole : prof.role ≠ "admin") :
    adminAPI.getUsers (some u) ⟨none, pf, af⟩ db =
      { data := none, error := some (mkErr "No autorizado") } ∧
    adminAPI.updateUserRole (some u) ⟨none, pf, af⟩ db userId newRole =
      ({ data := none, error := some (mkErr "No autorizado") }, db) :=
  ⟨getUsers_not_admin u pf af db prof hlp hrole,
   updateUserRole_not_admin u pf af db prof userId newRole hlp hrole⟩

/-- C4 witness: the non-admin principal u1 of the sample store invoking
both admin operations. -/
theorem claim_c4_witness :
    adminAPI.getUsers (some ⟨"u1"⟩) ⟨none, none, none⟩ adminDB =
      { data := none, error := some (mkErr "No autorizado") } ∧
    adminAPI.updateUserRole (some ⟨"u1"⟩) ⟨none, none, none⟩ adminDB "a1" "admin" =
      ({ data := none, error := some (mkErr "No autorizado") }, adminDB) :=
  claim_c4 ⟨"u1"⟩ none none adminDB plainProf "a1" "admin" (by decide) (by decide)

/-- C6: whenever getPageHistory returns data, the returned list has at
most 10 entries and its timestamps are non-increasing (newest first). -/
theorem claim_c6 (fault : Option Err) (db : DB) (n : String) (l : List HistRow)
    (h : (contentAPI.getPageHistory fault db n).data = some l) :
    l.length ≤ 10 ∧ List.Sorted contentAPI.histDescRel l := by
  cases fault with
  | some e => exact absurd h (by simp [contentAPI.getPageHistory])
  | none =>
    have hl : l = contentAPI.queryHistorial db n := (Option.some.inj h).symm
    subst hl
    constructor
    · exact (List.length_take 10 _).trans_le (min_le_left 10 _)
    · exact List.Pairwise.sublist (List.take_sublist 10 _)
        (List.sorted_insertionSort contentAPI.histDescRel _)

/-- C6 witness: the sample history store, whose three rows under page h
come back newest first. -/
theorem claim_c6_witness :
    ([⟨"h", "b", 9, "u"⟩, ⟨"h", "d", 4, "u"⟩, ⟨"h", "a", 1, "u"⟩] : List HistRow).length ≤ 10 ∧
    List.Sorted contentAPI.histDescRel
      [⟨"h", "b", 9, "u"⟩, ⟨"h", "d", 4, "u"⟩, ⟨"h", "a", 1, "u"⟩] :=
  claim_c6 none histDB "h" [⟨"h", "b", 9, "u"⟩, ⟨"h", "d", 4, "u"⟩, ⟨"h", "a", 1, "u"⟩]
    (by decide)

/-- C7: an authenticated admin writing any role string (remote calls
succeeding) gets a success outcome with no validation error, and every
profile row carrying the target id ends up with exactly that role
string. -/
theorem claim_c7 (u : User) (db : DB) (prof : Profile) (userId newRole : String)
    (hlp : adminAPI.lookupProfile none db u.id = some prof)
    (hrole : prof.role = "admin") :
    (adminAPI.updateUserRole (some u) ⟨none, none, none⟩ db userId newRole).1 =
      { data := some (), error := none } ∧
    ∀ p ∈ (adminAPI.updateUserRole (some u) ⟨none, none, none⟩ db userId newRole).2.profiles,
      p.id = userId → p.role = newRole := by
  rw [updateUserRole_ok u none db prof userId newRole hlp hrole]
  refine ⟨rfl, fun p hp hid => ?_⟩
  rcases List.mem_map.mp hp with ⟨q, hq, hfq⟩
  by_cases hqid : q.id == userId
  · rw [if_pos hqid] at hfq
    rw [← hfq]
  · rw [if_neg hqid] at hfq
    rw [← hfq] at hid
    exact absurd hid (by simpa using hqid)

/-- C7 witness: the sample admin writes the unrecognized role editor into
profile u1. -/
theorem claim_c7_witness :
    (adminAPI.updateUserRole (some ⟨"a1"⟩) ⟨none, none, none⟩ adminDB "u1" "editor").1 =
      { data := some (), error := none } ∧
    ∀ p ∈ (adminAPI.updateUserRole (some ⟨"a1"⟩) ⟨none, none, none⟩
        adminDB "u1" "editor").2.profiles,
      p.id = "u1" → p.role = "editor" :=
  claim_c7 ⟨"a1"⟩ adminDB adminProf "u1" "editor" (by decide) rfl

/-- C8: every operation is a total function (it returns an outcome for
every input and remote response), and every failure — remote errors at
any call site and the locally synthesized precondition failures alike —
is converted into the error-populated outcome shape with null data. -/
theorem claim_c8 :
    (∀ e, errShaped (authAPI.signUp (Except.error e))) ∧
    (∀ e, errShaped (authAPI.signIn (Except.error e))) ∧
    (∀ e, (authAPI.signOut (some e)).error = some e) ∧
    (∀ auth e, errShaped (authAPI.getSession auth (some e))) ∧
    (∀ auth e, errShaped (authAPI.getUser auth (some e))) ∧
    (∀ e, errShaped (authAPI.resetPassword (Except.error e))) ∧
    (∀ auth env now db n c, ¬ saveOk auth env →
      errShaped (contentAPI.savePageContent auth env now db n c).1) ∧
    (∀ e db n, e.code ≠ pgrstNoRows → errShaped (contentAPI.loadPageContent (some e) db n)) ∧
    (∀ e db n, errShaped (contentAPI.getPageHistory (some e) db n)) ∧
    (∀ auth env db, ¬ adminOk auth env db → errShaped (adminAPI.getUsers auth env db)) ∧
    (∀ auth env db uid r, ¬ adminOk auth env db →
      errShaped (adminAPI.updateUserRole auth env db uid r).1) := by
  refine ⟨fun e => errShaped_mk e, fun e => errShaped_mk e, fun e => rfl,
    fun auth e => errShaped_mk e, fun auth e => errShaped_mk e, fun e => errShaped_mk e,
    ?_, ?_, fun e db n => errShaped_mk e, ?_, ?_⟩
  · intro auth env now db n c hne
    obtain ⟨gf, uf⟩ := env
    cases gf with
    | some e => exact errShaped_mk _
    | none =>
      cases auth with
      | none => exact errShaped_mk _
      | some u =>
        cases uf with
        | some e => exact errShaped_mk _
        | none => exact absurd ⟨rfl, rfl, u, rfl⟩ hne
  · intro e db n he
    rw [load_fault e db n he]
    exact errShaped_mk e
  · intro auth env db hne
    obtain ⟨gf, pf, af⟩ := env
    cases gf with
    | some e => exact errShaped_mk _
    | none =>
      cases auth with
      | none => exact errShaped_mk _
      | some u =>
        cases hlp : adminAPI.lookupProfile pf db u.id with
        | none =>
          rw [getUsers_profile_none u pf af db hlp]
          exact errShaped_mk _
        | some prof =>
          by_cases hrole : prof.role = "admin"
          · cases af with
            | some e =>
              rw [getUsers_actionFault u pf db prof e hlp hrole]
              exact errShaped_mk _
            | none => exact absurd ⟨rfl, rfl, u, prof, rfl, hlp, hrole⟩ hne
          · rw [getUsers_not_admin u pf af db prof hlp hrole]
            exact errShaped_mk _
  · intro auth env db uid r hne
    obtain ⟨gf, pf, af⟩ := env
    cases gf with
    | some e => exact errShaped_mk _
    | none =>
      cases auth with
      | none => exact errShaped_mk _
      | some u =>
        cases hlp : adminAPI.lookupProfile pf db u.id with
        | none =>
          rw [updateUserRole_profile_none u pf af db uid r hlp]
          exact errShaped_mk _
        | some prof =>
          by_cases hrole : prof.role = "admin"
          · cases af with
            | some e =>
              rw [updateUserRole_actionFault u pf db prof e uid r hlp hrole]
              exact errShaped_mk _
            | none => exact absurd ⟨rfl, rfl, u, prof, rfl, hlp, hrole⟩ hne
          · rw [updateUserRole_not_admin u pf af db prof uid r hlp hrole]
            exact errShaped_mk _

/-- C8 witness: a concrete instance of each hypothesis-bearing conjunct —
the unauthenticated save, a non-no-rows load failure, and the two admin
operations invoked by the non-admin principal u1. -/
theorem claim_c8_witness :
    errShaped (contentAPI.savePageContent none ⟨none, none⟩ 0 emptyDB "home" "x").1 ∧
    errShaped (contentAPI.loadPageContent (some netErr) emptyDB "home") ∧
    errShaped (adminAPI.getUsers (some ⟨"u1"⟩) ⟨none, none, none⟩ adminDB) ∧
    errShaped (adminAPI.updateUserRole (some ⟨"u1"⟩) ⟨none, none, none⟩ adminDB "a1" "x").1 := by
  have hsave : ¬ saveOk none ⟨none, none⟩ := by
    rintro ⟨-, -, u, hu⟩
    exact Option.noConfusion hu
  have hadmin : ¬ adminOk (some ⟨"u1"⟩) ⟨none, none, none⟩ adminDB := by
    rintro ⟨-, -, u, prof, hu, hlp, hrole⟩
    cases hu
    rw [show adminAPI.lookupProfile none adminDB (User.id ⟨"u1"⟩) = some plainProf
      from by decide] at hlp
    cases hlp
    exact absurd hrole (by decide)
  exact ⟨claim_c8.2.2.2.2.2.2.1 none ⟨none, none⟩ 0 emptyDB "home" "x" hsave,
    claim_c8.2.2.2.2.2.2.2.1 netErr emptyDB "home" (by decide),
    claim_c8.2.2.2.2.2.2.2.2.2.1 (some ⟨"u1"⟩) ⟨none, none, none⟩ adminDB hadmin,
    claim_c8.2.2.2.2.2.2.2.2.2.2 (some ⟨"u1"⟩) ⟨none, none, none⟩ adminDB "a1" "x" hadmin⟩

/-- C9: an authenticated principal with no profile row is denied by both
admin operations — the null profile dereference is caught as a TypeError,
so the outcome is error-populated (not a non-admin treatment, not a
success) — and updateUserRole leaves the store untouched. -/
theorem claim_c9 (u : User) (af : Option Err) (db : DB) (userId newRole : String)
    (h : db.profiles.find? (fun p => p.id == u.id) = none) :
    adminAPI.getUsers (some u) ⟨none, none, af⟩ db =
      { data := none, error := some typeErr } ∧
    adminAPI.updateUserRole (some u) ⟨none, none, af⟩ db userId newRole =
      ({ data := none, error := some typeErr }, db) :=
  ⟨getUsers_profile_none u none af db h,
   updateUserRole_profile_none u none af db userId newRole h⟩

/-- C9 witness: a principal unknown to the sample profile table. -/
theorem claim_c9_witness :
    adminAPI.getUsers (some ⟨"zz"⟩) ⟨none, none, none⟩ adminDB =
      { data := none, error := some typeErr } ∧
    adminAPI.updateUserRole (some ⟨"zz"⟩) ⟨none, none, none⟩ adminDB "u1" "admin" =
      ({ data := none, error := some typeErr }, adminDB) :=
  claim_c9 ⟨"zz"⟩ none adminDB "u1" "admin" (by decide)

/-- C10: an authenticated admin updating a user id that matches no profile
row gets a success (null-error) outcome even though the profile table is
left exactly as it was — a zero-row update is not reported as an error. -/
theorem claim_c10 (u : User) (db : DB) (prof : Profile) (userId newRole : String)
    (hlp : adminAPI.lookupProfile none db u.id = some prof)
    (hrole : prof.role = "admin")
    (htarget : ∀ p ∈ db.profiles, p.id ≠ userId) :
    adminAPI.updateUserRole (some u) ⟨none, none, none⟩ db userId newRole =
      ({ data := some (), error := none }, db) := by
  rw [updateUserRole_ok u none db prof userId newRole hlp hrole,
    updateRole_of_no_match db.profiles userId newRole htarget]

/-- C10 witness: the sample admin updates an id absent from the profile
table. -/
theorem claim_c10_witness :
    adminAPI.updateUserRole (some ⟨"a1"⟩) ⟨none, none, none⟩ adminDB "zz" "editor" =
      ({ data := some (), error := none }, adminDB) :=
  claim_c10 ⟨"a1"⟩ adminDB adminProf "zz" "editor" (by decide) rfl (by decide)
